import Mathlib

/-!
Shallow embedding of `libs/hwui/OpenGLRenderer.cpp` (Android hardware-accelerated
2D renderer core) sufficient to settle the frozen claims about snapshot
save/restore, quick-rejection, clipping, layer composition, frame preparation
and functor invocation.

Geometry is carried over the rationals: the C++ code computes with `float`, but
every claim under scrutiny is about control flow, ordering and exact predicates
(comparisons, intersections, integer snap), not about rounding of IEEE
arithmetic, so an exact-arithmetic model is faithful for these properties.

Types owned by collaborator files (Rect.h, Matrix.h, Snapshot.h/.cpp,
DrawGlInfo.h) are not under the analysed source; where a claim depends on them
they are modelled from the spec, with a doc comment saying so.
-/

namespace HWUI

/-- Modelled from the spec: the rectangle type `Rect` (collaborator header
`Rect.h`), four edges, used for clips, bounds and viewports. -/
structure Rect where
  left : ℚ
  top : ℚ
  right : ℚ
  bottom : ℚ
  deriving Repr, DecidableEq

namespace Rect

/-- Modelled from the spec: a rectangle is degenerate / empty when it has
non-positive width or height. -/
def isEmpty (r : Rect) : Bool :=
  r.right ≤ r.left || r.bottom ≤ r.top

def setEmpty : Rect := ⟨0, 0, 0, 0⟩

def getWidth (r : Rect) : ℚ := r.right - r.left

def getHeight (r : Rect) : ℚ := r.bottom - r.top

/-- Modelled from the spec: "snap outward to pixel boundaries" — left/top are
floored, right/bottom are rounded up to the enclosing integer box. -/
def snapToPixelBoundaries (r : Rect) : Rect :=
  ⟨(⌊r.left⌋ : ℤ), (⌊r.top⌋ : ℤ), (⌈r.right⌉ : ℤ), (⌈r.bottom⌉ : ℤ)⟩

/-- Modelled from the spec: two rectangles intersect when their interiors
overlap; "disjoint" is the negation. -/
def intersects (a b : Rect) : Bool :=
  a.left < b.right && b.left < a.right && a.top < b.bottom && b.top < a.bottom

/-- Modelled from the spec: containment of `b` inside `a`. -/
def contains (a b : Rect) : Bool :=
  a.left ≤ b.left && a.top ≤ b.top && b.right ≤ a.right && b.bottom ≤ a.bottom

/-- Modelled from the spec: in-place intersection; when the two rectangles do
not overlap the receiver is unchanged and the operation reports failure
(callers then set the rectangle empty). -/
def intersect (a b : Rect) : Option Rect :=
  if a.intersects b then
    some ⟨max a.left b.left, max a.top b.top, min a.right b.right, min a.bottom b.bottom⟩
  else
    none

/-- Set-of-points reading of a rectangle, used to state containment claims. -/
def mem (r : Rect) (p : ℚ × ℚ) : Prop :=
  r.left ≤ p.1 ∧ p.1 ≤ r.right ∧ r.top ≤ p.2 ∧ p.2 ≤ r.bottom

end Rect

/-- Modelled from the spec: the transform attached to a snapshot (collaborator
`Matrix.h`, a 4×4 matrix that is affine for everything the claims touch).
`(x, y) ↦ (a·x + c·y + tx, b·x + d·y + ty)`. -/
structure Transform where
  a : ℚ
  b : ℚ
  c : ℚ
  d : ℚ
  tx : ℚ
  ty : ℚ
  deriving Repr, DecidableEq

namespace Transform

def id : Transform := ⟨1, 0, 0, 1, 0, 0⟩

def apply (t : Transform) (p : ℚ × ℚ) : ℚ × ℚ :=
  (t.a * p.1 + t.c * p.2 + t.tx, t.b * p.1 + t.d * p.2 + t.ty)

/-- Modelled from the spec: `mapRect` maps the four corners of the rectangle
and returns their bounding box. -/
def mapRect (t : Transform) (r : Rect) : Rect :=
  let p0 := t.apply (r.left, r.top)
  let p1 := t.apply (r.right, r.top)
  let p2 := t.apply (r.left, r.bottom)
  let p3 := t.apply (r.right, r.bottom)
  ⟨min (min p0.1 p1.1) (min p2.1 p3.1),
   min (min p0.2 p1.2) (min p2.2 p3.2),
   max (max p0.1 p1.1) (max p2.1 p3.1),
   max (max p0.2 p1.2) (max p2.2 p3.2)⟩

/-- Modelled from the spec: "the current transform maps rectangles to
rectangles" — no rotation or skew component. -/
def rectToRect (t : Transform) : Bool :=
  t.b = 0 && t.c = 0

end Transform

/-- Snapshot flag bits (`Snapshot::kFlag*`), as used by the analysed source. -/
def kFlagClipSet : Nat := 1
def kFlagDirtyOrtho : Nat := 2
def kFlagIsLayer : Nat := 4
def kFlagIsFboLayer : Nat := 8
def kFlagFboTarget : Nat := 16

/-- Modelled from the spec: one record of the save/restore stack (collaborator
`Snapshot.h`): transform, clip rectangle, optional non-rectangular clip region
(empty list = rectangular clip), alpha, flag bitset, and the
invisible/empty markers that make a snapshot "ignored". -/
structure Snapshot where
  transform : Transform
  clipRect : Rect
  clipRegion : List Rect
  alpha : ℚ
  flags : Nat
  invisible : Bool
  empty : Bool
  deriving Repr, DecidableEq

namespace Snapshot

/-- Modelled from the spec: a snapshot is ignored when an ancestor layer was
fully rejected (`invisible`) or produced an empty FBO layer (`empty`). -/
def isIgnored (s : Snapshot) : Bool :=
  s.invisible || s.empty

end Snapshot

/-- Modelled from the spec: the orthogonal draw-status bitset returned by every
draw operation (collaborator `DrawGlInfo.h`): nothing-drawn, functor wants to
draw, functor wants to be invoked again, something was drawn. -/
def kStatusDone : Nat := 0
def kStatusDraw : Nat := 1
def kStatusInvoke : Nat := 2
def kStatusDrew : Nat := 4

/-- GPU-visible operations the embedded functions emit, in issue order.
Only the constructors the claims inspect are distinguished; `drawArrays` /
`drawElements` are the GPU draw commands. -/
inductive GLOp where
  | drawArrays (vertexCount : Nat) : GLOp
  | drawElements (indexCount : Nat) : GLOp
  | clearColorBuffer : GLOp
  | enableScissor : GLOp
  | setScissor (x y w h : ℚ) : GLOp
  | resetScissor : GLOp
  | viewport (w h : ℚ) : GLOp
  | bindFramebuffer (fbo : Nat) : GLOp
  | layerUpdate : GLOp
  deriving Repr, DecidableEq

/-- Is this trace entry a GPU draw command? -/
def GLOp.isDraw : GLOp → Bool
  | .drawArrays _ => true
  | .drawElements _ => true
  | _ => false

/-!  ## Quick rejection (`OpenGLRenderer::quickReject`, lines 1435–1453)  -/

/-- `OpenGLRenderer::quickReject`: reject when the snapshot is ignored or the
local rectangle is degenerate; otherwise map the rectangle by the current
transform, snap it and the clip to pixel boundaries, and reject exactly when
they do not intersect.  (The scissor-enable side effect on the non-rejected
path touches cached GL state only and issues no draw command.) -/
def quickReject (s : Snapshot) (left top right bottom : ℚ) : Bool :=
  if s.isIgnored || bottom ≤ top || right ≤ left then
    true
  else
    let r := (s.transform.mapRect ⟨left, top, right, bottom⟩).snapToPixelBoundaries
    let clipRect := s.clipRect.snapToPixelBoundaries
    !(clipRect.intersects r)

/-!  ## Bitmap drawing (`OpenGLRenderer::drawBitmap`, lines 1863–1883)  -/

/-- A texture handle as far as the claims need it: the external texture cache
returns `none` on allocation failure. -/
structure Texture where
  id : Nat
  width : ℚ
  height : ℚ
  isAlpha8 : Bool
  deriving Repr, DecidableEq

/-- `gMeshCount`: the unit-quad mesh used for textured rectangles. -/
def gMeshCount : Nat := 4

/-- GPU trace of `drawTextureRect`/`drawAlphaBitmap`: after the setup pipeline,
one `glDrawArrays(GL_TRIANGLE_STRIP, 0, gMeshCount)`. -/
def drawTextureRectOps : List GLOp := [GLOp.drawArrays gMeshCount]

/-- `OpenGLRenderer::drawBitmap(bitmap, left, top, paint)`: quick-reject the
bitmap's bounds; on rejection return `kStatusDone` with no GPU commands; then
consult the texture cache (its result is passed in as `texture`), returning
`kStatusDone` with no GPU commands on a null handle; otherwise run the
alpha-8 or colour texture path and report `kStatusDrew`. -/
def drawBitmap (s : Snapshot) (texture : Option Texture)
    (bitmapWidth bitmapHeight left top : ℚ) : Nat × List GLOp :=
  let right := left + bitmapWidth
  let bottom := top + bitmapHeight
  if quickReject s left top right bottom then
    (kStatusDone, [])
  else
    match texture with
    | none => (kStatusDone, [])
    | some _ => (kStatusDrew, drawTextureRectOps)

/-!  ## Renderer state: snapshot stack and save/restore
     (`OpenGLRenderer::save/restore/restoreToCount/saveSnapshot/restoreSnapshot`,
     lines 584–637, and `prepareDirty`, lines 202–231)  -/

/-- The renderer state the claims observe: the snapshot stack (`mSnapshot` is
the head, `mFirstSnapshot` the root at the end), `mSaveCount`, the deferred
`mDirtyClip` flag, the registered functor set `mFunctors`, and the surface
size.  Value semantics replaces the C++ reference-counted parent chain: each
list entry is one `Snapshot` node. -/
structure RendererState where
  snapshots : List Snapshot
  saveCount : Nat
  dirtyClip : Bool
  functors : List Nat
  width : ℚ
  height : ℚ
  deriving Repr, DecidableEq

namespace RendererState

/-- `mSnapshot`: the top of the stack (the root snapshot when empty, which the
analysed code never reaches because the root is never popped). -/
def currentSnapshot (st : RendererState) : Snapshot :=
  st.snapshots.headD ⟨Transform.id, ⟨0, 0, st.width, st.height⟩, [], 1, 0, false, false⟩

end RendererState

/-- Modelled from the spec: `new Snapshot(parent, flags)` pushes a record
copying the parent's transform and clip (the save flags select which parts the
child owns privately; under value semantics the child starts from the same
values either way and the flags are recorded). -/
def Snapshot.push (parent : Snapshot) (_flags : Nat) : Snapshot :=
  { parent with flags := 0 }

/-- `OpenGLRenderer::saveSnapshot` (lines 606–609): push a snapshot and return
`mSaveCount++` — the value of the save count *before* the increment. -/
def saveSnapshot (st : RendererState) (flags : Nat) : Nat × RendererState :=
  (st.saveCount,
   { st with
     snapshots := Snapshot.push st.currentSnapshot flags :: st.snapshots
     saveCount := st.saveCount + 1 })

/-- `OpenGLRenderer::save` (lines 588–590): forwards to `saveSnapshot`. -/
def save (st : RendererState) (flags : Nat) : Nat × RendererState :=
  saveSnapshot st flags

/-- `OpenGLRenderer::restoreSnapshot` (lines 611–637), restricted to the state
the stack claims observe: pop the top snapshot, decrement the save count, and
mark the clip dirty when the popped snapshot had set a clip.  (Layer
composition and ortho restoration on the popped snapshot are modelled
separately by `composeLayer`.) -/
def restoreSnapshot (st : RendererState) : RendererState :=
  let restoreClip := st.currentSnapshot.flags &&& kFlagClipSet ≠ 0
  { st with
    snapshots := st.snapshots.tail
    saveCount := st.saveCount - 1
    dirtyClip := st.dirtyClip || restoreClip }

/-- `OpenGLRenderer::restore` (lines 592–596): pop only when `mSaveCount > 1`. -/
def restore (st : RendererState) : RendererState :=
  if st.saveCount > 1 then restoreSnapshot st else st

/-- The `while (mSaveCount > saveCount) restoreSnapshot()` loop of
`restoreToCount`, driven by fuel that bounds the iteration count. -/
def restoreLoop (target : Nat) : Nat → RendererState → RendererState
  | 0, st => st
  | fuel + 1, st =>
      if st.saveCount > target then restoreLoop target fuel (restoreSnapshot st) else st

/-- `OpenGLRenderer::restoreToCount` (lines 598–604): clamp the argument to at
least 1, then pop while `mSaveCount` exceeds it.  `st.saveCount` iterations of
fuel always suffice for the loop to reach its exit condition. -/
def restoreToCount (st : RendererState) (saveCount : Int) : RendererState :=
  let target : Nat := (max saveCount 1).toNat
  restoreLoop target st.saveCount st

/-- `OpenGLRenderer::getSaveCount` (lines 584–586). -/
def getSaveCount (st : RendererState) : Nat :=
  st.saveCount

/-- `n` successive `save(flags)` calls (dropping the returned depths). -/
def saveN : Nat → RendererState → RendererState
  | 0, st => st
  | n + 1, st => saveN n (save st 0).2

/-- `m` successive `restore()` calls. -/
def restoreN : Nat → RendererState → RendererState
  | 0, st => st
  | m + 1, st => restoreN m (restore st)

/-!  ## Frame preparation (`prepareDirty`, lines 202–231, and `clear`,
     lines 247–257)  -/

/-- `OpenGLRenderer::clear`: when not opaque, enable the scissor, scissor to
the dirty rectangle (converted to GL's bottom-left origin), clear the colour
buffer and report `kStatusDrew`; when opaque, only reset the scissor state and
report `kStatusDone`. -/
def clear (snapshotHeight left top right bottom : ℚ) (isOpaque : Bool) :
    Nat × List GLOp :=
  if !isOpaque then
    (kStatusDrew,
     [GLOp.enableScissor,
      GLOp.setScissor left (snapshotHeight - bottom) (right - left) (bottom - top),
      GLOp.clearColorBuffer])
  else
    (kStatusDone, [GLOp.resetScissor])

/-- `OpenGLRenderer::prepareDirty(left, top, right, bottom, opaque)`: rebuild
the working snapshot from the root with the dirty rectangle as clip, reset
`mSaveCount` to 1, mark the clip dirty, run the pending layer updates (draws
into other render targets, abstracted as `layerUpdate` events), sync GL state,
and finish by returning `clear`'s status.  `pendingLayerUpdates` stands for
`mLayerUpdates.size()` at entry. -/
def prepareDirty (st : RendererState) (pendingLayerUpdates : Nat)
    (left top right bottom : ℚ) (isOpaque : Bool) :
    Nat × RendererState × List GLOp :=
  let root : Snapshot :=
    ⟨Transform.id, ⟨0, 0, st.width, st.height⟩, [], 1, 0, false, false⟩
  let fresh : Snapshot :=
    { Snapshot.push root (kFlagClipSet ||| kFlagDirtyOrtho) with
      clipRect := ⟨left, top, right, bottom⟩
      flags := kFlagClipSet }
  let st' : RendererState :=
    { st with snapshots := [fresh], saveCount := 1, dirtyClip := true }
  let prepOps : List GLOp :=
    List.replicate pendingLayerUpdates GLOp.layerUpdate ++ [GLOp.viewport st.width st.height]
  let c := clear st.height left top right bottom isOpaque
  (c.1, st', prepOps ++ c.2)

/-!  ## Functor invocation (`OpenGLRenderer::invokeFunctors`, lines 380–416)  -/

/-- `SortedVector<Functor*>::add`: set-semantics insertion. -/
def sortedAdd (l : List Nat) (f : Nat) : List Nat :=
  if f ∈ l then l else l ++ [f]

/-- What one functor does when invoked with `kModeProcess`: its returned status
word, and the functors it attaches re-entrantly (by calling `attachFunctor`)
during its own invocation. -/
structure FunctorBehavior where
  status : Nat → Nat
  attaches : Nat → List Nat

/-- The body of the `for` loop of `invokeFunctors`, over the local snapshot
`functors` of the registered set: invoke each functor, OR its status into the
accumulated `result`, honour re-entrant `attachFunctor` calls, and re-register
the functor when the *accumulated* result carries `kStatusInvoke`.  Returns the
final accumulated status, the final `mFunctors` contents, and the trace of
invoked functors in order. -/
def invokeLoop (beh : FunctorBehavior) :
    List Nat → Nat → List Nat → Nat × List Nat × List Nat
  | [], result, registered => (result, registered, [])
  | f :: rest, result, registered =>
      let result' := result ||| beh.status f
      let registered' := (beh.attaches f).foldl sortedAdd registered
      let registered'' :=
        if result' &&& kStatusInvoke ≠ 0 then sortedAdd registered' f else registered'
      let tail := invokeLoop beh rest result' registered''
      (tail.1, tail.2.1, f :: tail.2.2)

/-- `OpenGLRenderer::invokeFunctors`: when functors are registered, snapshot
the set, clear it, invoke every functor of the snapshot exactly as the loop
does, and leave the re-registered set behind.  Returns the status, the new
state and the invocation trace. -/
def invokeFunctors (beh : FunctorBehavior) (st : RendererState) :
    Nat × RendererState × List Nat :=
  if st.functors.isEmpty then
    (kStatusDone, st, [])
  else
    let r := invokeLoop beh st.functors kStatusDone []
    (r.1, { st with functors := r.2.1 }, r.2.2)

/-!  ## Clipping (`OpenGLRenderer::clipRect/clipPath/clipRegion`,
     lines 1463–1509; the snapshot-side operations live in the collaborator
     `Snapshot.cpp` and are modelled from the spec)  -/

/-- `SkRegion::Op`, restricted to the operators the analysed call sites use. -/
inductive RegionOp where
  | intersect
  | union
  | replace
  deriving Repr, DecidableEq

/-- Union bounding box of two rectangles. -/
def unionRect (a b : Rect) : Rect :=
  ⟨min a.left b.left, min a.top b.top, max a.right b.right, max a.bottom b.bottom⟩

/-- A region as a finite union of rectangles (`SkRegion`); `[]` is the empty
region. -/
def regionInter (as_ bs : List Rect) : List Rect :=
  as_.flatMap fun a => bs.filterMap fun b => a.intersect b

/-- Bounding box of a region; the empty region has the canonical empty
rectangle as bounds. -/
def regionBounds : List Rect → Rect
  | [] => Rect.setEmpty
  | r :: rs => rs.foldl unionRect r

/-- `Bool`-level containment of `a` within `b` as clip rectangles: an empty
rectangle is contained in anything. -/
def Rect.subsetB (a b : Rect) : Bool :=
  a.isEmpty || b.contains a

namespace Snapshot

/-- The snapshot's effective clip as a region: the stored region when one is
set, the clip rectangle otherwise. -/
def regionOf (s : Snapshot) : List Rect :=
  if s.clipRegion.isEmpty then [s.clipRect] else s.clipRegion

/-- Modelled from the spec: `Snapshot::clipTransformed` for the cheap
rectangular path — combine the (already transformed) rectangle with the clip
rectangle directly under the requested operator; a failed intersection leaves
the clip empty. -/
def clipTransformed (s : Snapshot) (r : Rect) : RegionOp → Snapshot
  | .intersect =>
      match s.clipRect.intersect r with
      | some c => { s with clipRect := c, flags := s.flags ||| kFlagClipSet }
      | none => { s with clipRect := Rect.setEmpty, flags := s.flags ||| kFlagClipSet }
  | .replace => { s with clipRect := r, flags := s.flags ||| kFlagClipSet }
  | .union => { s with clipRect := unionRect s.clipRect r, flags := s.flags ||| kFlagClipSet }

/-- Modelled from the spec: `Snapshot::clip(l,t,r,b,op)` — map the local
rectangle by the snapshot transform, then combine. -/
def clipLocal (s : Snapshot) (l t r b : ℚ) (op : RegionOp) : Snapshot :=
  s.clipTransformed (s.transform.mapRect ⟨l, t, r, b⟩) op

/-- Modelled from the spec: `Snapshot::clipRegionTransformed` — combine the
incoming region with the existing clip (taken as a region), store the result
as the clip region and replace the clip rectangle by the result's bounds. -/
def clipRegionTransformed (s : Snapshot) (region : List Rect) : RegionOp → Snapshot
  | .intersect =>
      let nr := regionInter s.regionOf region
      { s with clipRegion := nr, clipRect := regionBounds nr,
               flags := s.flags ||| kFlagClipSet }
  | .replace =>
      { s with clipRegion := region, clipRect := regionBounds region,
               flags := s.flags ||| kFlagClipSet }
  | .union =>
      let nr := s.regionOf ++ region
      { s with clipRegion := nr, clipRect := regionBounds nr,
               flags := s.flags ||| kFlagClipSet }

end Snapshot

/-- `OpenGLRenderer::clipPath` (lines 1478–1501): rasterize the transformed
path against the current clip-as-region (`raster` is the external
rasterizer's pixel region for the transformed path; `SkRegion::setPath`
clips it to the current clip), then fold it into the snapshot.  Returns
whether the clip is non-empty afterwards, with the updated snapshot. -/
def clipPathOp (s : Snapshot) (raster : List Rect) (op : RegionOp) : Bool × Snapshot :=
  let region := regionInter raster s.regionOf
  let s' := s.clipRegionTransformed region op
  (!s'.clipRect.isEmpty, s')

/-- `OpenGLRenderer::clipRect` (lines 1463–1476): cheap rectangle combine when
the transform maps rectangles to rectangles; otherwise the rectangle is turned
into a path and handled by `clipPathOp` (with `raster` standing for that
path's rasterization). -/
def clipRectOp (s : Snapshot) (l t r b : ℚ) (op : RegionOp) (raster : List Rect) :
    Bool × Snapshot :=
  if s.transform.rectToRect then
    let s' := s.clipLocal l t r b op
    (!s'.clipRect.isEmpty, s')
  else
    clipPathOp s raster op

/-- `OpenGLRenderer::clipRegion` (lines 1503–1509). -/
def clipRegionOp (s : Snapshot) (region : List Rect) (op : RegionOp) : Bool × Snapshot :=
  let s' := s.clipRegionTransformed region op
  (!s'.clipRect.isEmpty, s')

/-!  ## Layer composition (`OpenGLRenderer::composeLayer`, lines 871–930)  -/

/-- The transfer modes the composition paths use (`SkXfermode::Mode`). -/
inductive XferMode where
  | srcOver
  | dstIn
  | srcIn
  | clearMode
  deriving Repr, DecidableEq

/-- The layer fields composition reads: composite alpha (0–255), stored blend
mode, bounds in parent coordinates (`layer->layer`), and the blend flag. -/
structure Layer where
  alpha : Nat
  mode : XferMode
  layerRect : Rect
  blend : Bool
  deriving Repr, DecidableEq

/-- Draw events `composeLayer` can issue, in order.  `colorRect` is
`drawColorRect(l, t, r, b, color, mode, ignoreTransform)`; `composeRect` is the
textured-quad composition of `composeLayerRect` carrying the layer alpha in
force at that point; `composeRegion` is the per-dirty-rectangle batched variant
used for FBO layers; `bindParentFbo` is the render-target restoration. -/
inductive CompositionEvent where
  | bindParentFbo : CompositionEvent
  | colorRect (r : Rect) (color : Nat) (mode : XferMode) (ignoreTransform : Bool) :
      CompositionEvent
  | composeRect (layerAlpha : Nat) (mode : XferMode) (r : Rect) : CompositionEvent
  | composeRegion (layerAlpha : Nat) (r : Rect) : CompositionEvent
  deriving Repr, DecidableEq

/-- `OpenGLRenderer::composeLayer(current, previous)`: nothing happens without
a layer; for FBO layers the parent target is rebound first; for non-FBO layers
carrying alpha < 255, a destination-in colour quad over the layer bounds
multiplies the framebuffer by that alpha and the layer's alpha is reset to 255;
then the composition draw is issued (region-batched for FBO layers, a single
textured quad otherwise — and only when the bounds are non-empty).  Returns
the layer as left behind (for the pooling cache) and the event trace. -/
def composeLayer (current : Snapshot) (layer : Option Layer) :
    Option Layer × List CompositionEvent :=
  match layer with
  | none => (none, [])
  | some l =>
      let fboLayer := current.flags &&& kFlagIsFboLayer ≠ 0
      let fboEvents : List CompositionEvent :=
        if fboLayer then [CompositionEvent.bindParentFbo] else []
      let stepped :=
        if !fboLayer && l.alpha < 255 then
          ({ l with alpha := 255 },
           [CompositionEvent.colorRect l.layerRect (l.alpha <<< 24) XferMode.dstIn true])
        else
          (l, ([] : List CompositionEvent))
      let l' := stepped.1
      let composeEvents : List CompositionEvent :=
        if fboLayer then
          [CompositionEvent.composeRegion l'.alpha l'.layerRect]
        else if !l'.layerRect.isEmpty then
          [CompositionEvent.composeRect l'.alpha l'.mode l'.layerRect]
        else
          []
      (some l', fboEvents ++ stepped.2 ++ composeEvents)

/-!  ## `drawBitmapData` (lines 1913–1932): the transient-texture bitmap draw.
     Unlike every other draw, it does not null-check the cache result; the
     fetched handle goes straight into `drawAlphaBitmap` / `drawTextureRect`,
     whose first action dereferences it (`texture->setWrap`).  `none` models
     that null-pointer dereference fault. -/

def drawBitmapData (s : Snapshot) (texture : Option Texture)
    (bitmapWidth bitmapHeight left top : ℚ) : Option (Nat × List GLOp) :=
  let right := left + bitmapWidth
  let bottom := top + bitmapHeight
  if quickReject s left top right bottom then
    some (kStatusDone, [])
  else
    match texture with
    | none => none
    | some _ => some (kStatusDrew, drawTextureRectOps)

/-!  ## Concrete states used by witnesses and counterexamples  -/

/-- A fresh renderer for a 100×100 surface, before any frame. -/
def initial100 : RendererState :=
  { snapshots := [⟨Transform.id, ⟨0, 0, 100, 100⟩, [], 1, 0, false, false⟩]
    saveCount := 1
    dirtyClip := false
    functors := []
    width := 100
    height := 100 }

/-- The state right after `prepareDirty(0, 0, 100, 100, false)`. -/
def prepared100 : RendererState :=
  (prepareDirty initial100 0 0 0 100 100 false).2.1

/-- A plain visible snapshot clipped to the full 100×100 surface. -/
def plainSnapshot : Snapshot :=
  ⟨Transform.id, ⟨0, 0, 100, 100⟩, [], 1, 0, false, false⟩

/-- A functor that asks to be invoked again and also re-registers itself
re-entrantly while running; used to witness the batching behaviour. -/
def selfRereg : FunctorBehavior :=
  ⟨fun _ => kStatusInvoke ||| kStatusDrew, fun f => [f]⟩

/-- A renderer with one registered functor. -/
def stOneFunctor : RendererState :=
  { prepared100 with functors := [7] }

/-- A pair of functors where only the first asks for re-invocation. -/
def firstAsksInvoke : FunctorBehavior :=
  ⟨fun f => if f = 3 then kStatusInvoke else kStatusDone, fun _ => []⟩

/-- A renderer with two registered functors. -/
def stTwoFunctors : RendererState :=
  { prepared100 with functors := [3, 9] }

/-!  ## Theorems  -/

/-- C1: for `drawBitmap` (representative of the shared quick-reject policy),
if the bitmap's bounds mapped by the snapshot transform and pixel-snapped are
disjoint from the pixel-snapped clip, or the snapshot is ignored, or the
rectangle is degenerate, the call returns `kStatusDone` and issues no GPU draw
command (its command trace is empty), whatever the texture cache returns. -/
theorem quickReject_soundness (s : Snapshot) (tex : Option Texture)
    (bw bh left top : ℚ)
    (h : s.isIgnored = true ∨ top + bh ≤ top ∨ left + bw ≤ left
       ∨ Rect.intersects (s.clipRect.snapToPixelBoundaries)
           ((s.transform.mapRect ⟨left, top, left + bw, top + bh⟩).snapToPixelBoundaries)
           = false) :
    drawBitmap s tex bw bh left top = (kStatusDone, []) := by
  have hq : quickReject s left top (left + bw) (top + bh) = true := by
    unfold quickReject
    rcases h with h | h | h | h
    · simp [h]
    · simp [h]
    · simp [h]
    · split
      · rfl
      · simp [h]
  unfold drawBitmap
  simp only [hq, if_pos]

/-- Witness for C1: a 10×10 bitmap placed at (200, 200), fully outside the
100×100 clip, is rejected. -/
theorem quickReject_soundness_witness :
    drawBitmap plainSnapshot (some ⟨1, 10, 10, false⟩) 10 10 200 200 = (kStatusDone, []) :=
  quickReject_soundness plainSnapshot (some ⟨1, 10, 10, false⟩) 10 10 200 200
    (Or.inr (Or.inr (Or.inr (by
      norm_num [plainSnapshot, Rect.intersects, Rect.snapToPixelBoundaries,
        Transform.mapRect, Transform.apply, Transform.id]))))

/-- C2 counterexample: right after frame preparation the save count is 1, and
the first `save` returns 1 — not the new stack depth 2 the claim states —
because `saveSnapshot` returns `mSaveCount++`, the pre-increment value. -/
theorem save_return_cex :
    (save prepared100 0).1 = 1 ∧ (save prepared100 0).2.saveCount = 2 ∧
    (save prepared100 0).1 ≠ (save prepared100 0).2.saveCount := by
  refine ⟨rfl, rfl, ?_⟩
  decide

/-- C2 (amended): `save(flags)` returns the save count as it was *before* the
push; the stack depth afterwards is that value plus one, so the first save
after frame preparation returns 1 and leaves the save count at 2. -/
theorem save_returns_previous_count (st : RendererState) (flags : Nat) :
    (save st flags).1 = st.saveCount ∧ (save st flags).2.saveCount = st.saveCount + 1 :=
  ⟨rfl, rfl⟩

/-- C5 (code-bug evidence): with a fully visible 10×10 bitmap at the origin,
`drawBitmap` treats a null texture-cache result as "skip, report done", but
`drawBitmapData` passes the unchecked null handle into `drawTextureRect`,
which dereferences it — the fault the spec's contract forbids. -/
theorem drawBitmapData_null_texture_fault :
    drawBitmapData plainSnapshot none 10 10 0 0 = none ∧
    drawBitmap plainSnapshot none 10 10 0 0 = (kStatusDone, []) := by
  have hq : quickReject plainSnapshot 0 0 10 10 = false := by
    norm_num [quickReject, plainSnapshot, Snapshot.isIgnored, Rect.intersects,
      Rect.snapToPixelBoundaries, Transform.mapRect, Transform.apply, Transform.id]
  constructor
  · unfold drawBitmapData
    simp [hq]
  · unfold drawBitmap
    simp [hq]

/-- C9: the save count never drops below 1 — `restore()` at save count 1 is a
complete no-op on the renderer state (stack, transform, clip and alpha all
unchanged), and `restoreToCount(n)` for `n < 1` behaves exactly like
`restoreToCount(1)`, so the root snapshot can never be popped. -/
theorem root_snapshot_never_popped (st : RendererState) (h : st.saveCount = 1)
    (n : Int) (hn : n < 1) :
    restore st = st ∧ restoreToCount st n = restoreToCount st 1 := by
  constructor
  · unfold restore
    rw [if_neg]
    omega
  · unfold restoreToCount
    have hmax : max n 1 = max (1 : Int) 1 := by omega
    rw [hmax]

/-- Witness for C9 at the freshly prepared frame and `n = 0`. -/
theorem root_snapshot_never_popped_witness :
    restore prepared100 = prepared100 ∧
    restoreToCount prepared100 0 = restoreToCount prepared100 1 :=
  root_snapshot_never_popped prepared100 (by decide) 0 (by decide)

/-- `saveN` adds one to the save count per call. -/
theorem saveN_saveCount (n : Nat) (st : RendererState) :
    (saveN n st).saveCount = st.saveCount + n := by
  induction n generalizing st with
  | zero => rfl
  | succ k ih =>
      show (saveN k (save st 0).2).saveCount = st.saveCount + (k + 1)
      rw [ih]
      show st.saveCount + 1 + k = st.saveCount + (k + 1)
      omega

/-- While there are strictly more saves than restores, every `restore()` pops
one snapshot. -/
theorem restoreN_saveCount_of_le (m : Nat) (st : RendererState)
    (h : m + 1 ≤ st.saveCount) :
    (restoreN m st).saveCount = st.saveCount - m := by
  induction m generalizing st with
  | zero => simp [restoreN]
  | succ k ih =>
      show (restoreN k (restore st)).saveCount = st.saveCount - (k + 1)
      have hgt : st.saveCount > 1 := by omega
      have hres : restore st = restoreSnapshot st := by
        unfold restore
        rw [if_pos hgt]
      have hcount : (restoreSnapshot st).saveCount = st.saveCount - 1 := rfl
      rw [hres, ih (restoreSnapshot st) (by omega)]
      omega

/-- The `restoreToCount` loop lands on `min (current depth) target` whenever
it has enough fuel to run to its exit condition. -/
theorem restoreLoop_saveCount (fuel : Nat) :
    ∀ (target : Nat) (st : RendererState), st.saveCount - target ≤ fuel →
      (restoreLoop target fuel st).saveCount = min st.saveCount target := by
  induction fuel with
  | zero =>
      intro target st h
      show st.saveCount = min st.saveCount target
      omega
  | succ k ih =>
      intro target st h
      show (if st.saveCount > target then restoreLoop target k (restoreSnapshot st)
            else st).saveCount = min st.saveCount target
      by_cases hgt : st.saveCount > target
      · rw [if_pos hgt]
        have hcount : (restoreSnapshot st).saveCount = st.saveCount - 1 := rfl
        rw [ih target (restoreSnapshot st) (by rw [hcount]; omega), hcount]
        omega
      · rw [if_neg hgt]
        omega

/-- C3 (amended): from a freshly prepared frame, `getSaveCount()` after `N`
saves and `M < N` restores is `max (1, N + 1 − M)`; and `restoreToCount(n)`
pops snapshots only while the save count exceeds `max(n, 1)`, so it ends at
`min (current count, max(n, 1))` — it never raises the count when the target
exceeds the current depth. -/
theorem saveRestore_counts (st0 : RendererState) (h0 : st0.saveCount = 1)
    (N M : Nat) (hM : M < N) (st : RendererState) (n : Int) :
    getSaveCount (restoreN M (saveN N st0)) = max 1 (N + 1 - M) ∧
    getSaveCount (restoreToCount st n) = min (getSaveCount st) (max n 1).toNat := by
  constructor
  · have h1 : (saveN N st0).saveCount = N + 1 := by
      rw [saveN_saveCount, h0]
      omega
    have h2 := restoreN_saveCount_of_le M (saveN N st0) (by omega)
    unfold getSaveCount
    rw [h2, h1]
    omega
  · unfold getSaveCount restoreToCount
    exact restoreLoop_saveCount st.saveCount ((max n 1).toNat) st (by omega)

/-- C3 counterexample: from the prepared frame, one `save` brings the count to
2; `restoreToCount(5)` pops nothing and leaves the count at 2, not at
`max(5, 1) = 5` as the claim's restoreToCount clause states. -/
theorem restoreToCount_cex :
    getSaveCount (restoreToCount (save prepared100 0).2 5) = 2 ∧ (2 : Nat) ≠ max 5 1 := by
  constructor
  · rfl
  · decide

/-- Witness for C3 (amended): `N = 2`, `M = 1`, and `restoreToCount(0)` at the
prepared frame. -/
theorem saveRestore_counts_witness :
    getSaveCount (restoreN 1 (saveN 2 prepared100)) = max 1 (2 + 1 - 1) ∧
    getSaveCount (restoreToCount prepared100 0) =
      min (getSaveCount prepared100) (max (0 : Int) 1).toNat :=
  saveRestore_counts prepared100 (by decide) 2 1 (by decide) prepared100 0

/-- The invocation trace of the functor loop is exactly the list it was handed. -/
theorem invokeLoop_trace (beh : FunctorBehavior) :
    ∀ (fs : List Nat) (result : Nat) (reg : List Nat),
      (invokeLoop beh fs result reg).2.2 = fs := by
  intro fs
  induction fs with
  | nil => intro result reg; rfl
  | cons f rest ih =>
      intro result reg
      show f :: (invokeLoop beh rest _ _).2.2 = f :: rest
      rw [ih]

/-- `sortedAdd` keeps existing members. -/
theorem mem_sortedAdd {l : List Nat} {x : Nat} (f : Nat) (h : x ∈ l) :
    x ∈ sortedAdd l f := by
  unfold sortedAdd
  split
  · exact h
  · exact List.mem_append_left _ h

/-- `sortedAdd` contains the added element. -/
theorem mem_sortedAdd_self (l : List Nat) (f : Nat) : f ∈ sortedAdd l f := by
  unfold sortedAdd
  split
  · assumption
  · simp

/-- Folding `sortedAdd` over any additions keeps existing members. -/
theorem mem_foldl_sortedAdd (gs : List Nat) :
    ∀ (l : List Nat) (x : Nat), x ∈ l → x ∈ gs.foldl sortedAdd l := by
  induction gs with
  | nil => intro l x h; exact h
  | cons g rest ih =>
      intro l x h
      exact ih (sortedAdd l g) x (mem_sortedAdd g h)

/-- The registered set only grows across the functor loop. -/
theorem invokeLoop_registered_mono (beh : FunctorBehavior) :
    ∀ (fs : List Nat) (result : Nat) (reg : List Nat) (x : Nat),
      x ∈ reg → x ∈ (invokeLoop beh fs result reg).2.1 := by
  intro fs
  induction fs with
  | nil => intro result reg x h; exact h
  | cons f rest ih =>
      intro result reg x h
      show x ∈ (invokeLoop beh rest _ _).2.1
      apply ih
      have h1 : x ∈ (beh.attaches f).foldl sortedAdd reg :=
        mem_foldl_sortedAdd (beh.attaches f) reg x h
      split
      · exact mem_sortedAdd f h1
      · exact h1

/-- ORing more bits in preserves the invoke bit. -/
theorem or_keeps_invoke {aa : Nat} (bb : Nat) (h : aa &&& kStatusInvoke ≠ 0) :
    (aa ||| bb) &&& kStatusInvoke ≠ 0 := by
  intro hz
  apply h
  apply Nat.eq_of_testBit_eq
  intro i
  have h2 : ((aa ||| bb) &&& kStatusInvoke).testBit i = false := by
    rw [hz]
    exact Nat.zero_testBit i
  rw [Nat.testBit_and, Nat.testBit_or] at h2
  rw [Nat.testBit_and, Nat.zero_testBit]
  cases hb : (aa.testBit i) <;> cases hc : (kStatusInvoke.testBit i) <;>
    simp_all

/-- An invoke bit supplied by the current functor also survives the OR. -/
theorem or_keeps_invoke_right (aa : Nat) {bb : Nat} (h : bb &&& kStatusInvoke ≠ 0) :
    (aa ||| bb) &&& kStatusInvoke ≠ 0 := by
  rw [Nat.or_comm]
  exact or_keeps_invoke aa h

/-- Once the accumulated status carries the invoke bit, every remaining
functor of the batch ends up re-registered. -/
theorem invokeLoop_invoke_all (beh : FunctorBehavior) :
    ∀ (fs : List Nat) (result : Nat) (reg : List Nat),
      result &&& kStatusInvoke ≠ 0 →
      ∀ f ∈ fs, f ∈ (invokeLoop beh fs result reg).2.1 := by
  intro fs
  induction fs with
  | nil => intro result reg _ f hf; cases hf
  | cons g rest ih =>
      intro result reg hbit f hf
      have hbit' : (result ||| beh.status g) &&& kStatusInvoke ≠ 0 :=
        or_keeps_invoke _ hbit
      rcases List.mem_cons.mp hf with rfl | hf'
      · show f ∈ (invokeLoop beh rest _ _).2.1
        apply invokeLoop_registered_mono
        rw [if_pos hbit']
        exact mem_sortedAdd_self _ f
      · exact ih (result ||| beh.status g) _ hbit' f hf'

/-- Inside the loop: when the functor at position `i` reports the invoke bit,
every functor at position `j ≥ i` of the batch is re-registered. -/
theorem invokeLoop_suffix_registered (beh : FunctorBehavior) :
    ∀ (fs : List Nat) (result : Nat) (reg : List Nat) (i j : Nat)
      (hi : i < fs.length) (hj : j < fs.length), i ≤ j →
      beh.status (fs.get ⟨i, hi⟩) &&& kStatusInvoke ≠ 0 →
      fs.get ⟨j, hj⟩ ∈ (invokeLoop beh fs result reg).2.1 := by
  intro fs
  induction fs with
  | nil => intro result reg i j hi; cases hi
  | cons g rest ih =>
      intro result reg i j hi hj hij hbit
      cases i with
      | zero =>
          have hbit' : (result ||| beh.status g) &&& kStatusInvoke ≠ 0 :=
            or_keeps_invoke_right _ hbit
          cases j with
          | zero =>
              show g ∈ (invokeLoop beh rest _ _).2.1
              apply invokeLoop_registered_mono
              rw [if_pos hbit']
              exact mem_sortedAdd_self _ g
          | succ j' =>
              show rest.get ⟨j', Nat.lt_of_succ_lt_succ hj⟩ ∈ (invokeLoop beh rest _ _).2.1
              exact invokeLoop_invoke_all beh rest _ _ hbit' _
                (List.get_mem rest j' (Nat.lt_of_succ_lt_succ hj))
      | succ i' =>
          cases j with
          | zero => omega
          | succ j' =>
              show rest.get ⟨j', Nat.lt_of_succ_lt_succ hj⟩ ∈ (invokeLoop beh rest _ _).2.1
              exact ih _ _ i' j' (Nat.lt_of_succ_lt_succ hi) (Nat.lt_of_succ_lt_succ hj)
                (Nat.le_of_succ_le_succ hij) hbit

/-- C6: `invokeFunctors` invokes exactly the functors registered at entry, in
order — its invocation trace is the entry snapshot of `mFunctors` — and since
that snapshot is a set (no duplicates), a functor that re-registers itself
while the batch runs is invoked at most once in this call; the re-registration
only lands in the state for a later batch. -/
theorem functors_not_reinvoked (beh : FunctorBehavior) (st : RendererState)
    (hnd : st.functors.Nodup) :
    (invokeFunctors beh st).2.2 = st.functors ∧
    ∀ f : Nat, ((invokeFunctors beh st).2.2).count f ≤ 1 := by
  have htrace : (invokeFunctors beh st).2.2 = st.functors := by
    unfold invokeFunctors
    split
    · next h =>
        rw [List.isEmpty_iff] at h
        rw [h]
    · exact invokeLoop_trace beh st.functors kStatusDone []
  refine ⟨htrace, fun f => ?_⟩
  rw [htrace]
  exact List.nodup_iff_count_le_one.mp hnd f

/-- Witness for C6: one functor that both asks for re-invocation and
re-attaches itself re-entrantly is still invoked exactly once in the batch. -/
theorem functors_not_reinvoked_witness :
    (invokeFunctors selfRereg stOneFunctor).2.2 = stOneFunctor.functors ∧
    ∀ f : Nat, ((invokeFunctors selfRereg stOneFunctor).2.2).count f ≤ 1 :=
  functors_not_reinvoked selfRereg stOneFunctor (by decide)

/-- C10: re-registration is decided from the bitwise-OR accumulation of all
statuses so far — when the functor at index `i` of the batch returns the
invoke bit, every functor at index `j ≥ i` (including those whose own status
did not request re-invocation) is re-registered for a future frame. -/
theorem invoke_status_accumulated (beh : FunctorBehavior) (st : RendererState)
    (i j : Nat) (hi : i < st.functors.length) (hj : j < st.functors.length)
    (hij : i ≤ j)
    (hbit : beh.status (st.functors.get ⟨i, hi⟩) &&& kStatusInvoke ≠ 0) :
    st.functors.get ⟨j, hj⟩ ∈ ((invokeFunctors beh st).2.1).functors := by
  have hne : ¬ (st.functors.isEmpty = true) := by
    rw [List.isEmpty_iff]
    intro h
    rw [h] at hi
    cases hi
  unfold invokeFunctors
  rw [if_neg hne]
  exact invokeLoop_suffix_registered beh st.functors kStatusDone [] i j hi hj hij hbit

/-- Witness for C10: functor 3 requests re-invocation, functor 9 does not,
yet 9 is also re-registered because the decision reads the accumulated OR. -/
theorem invoke_status_accumulated_witness :
    stTwoFunctors.functors.get ⟨1, by decide⟩ ∈
      ((invokeFunctors firstAsksInvoke stTwoFunctors).2.1).functors :=
  invoke_status_accumulated firstAsksInvoke stTwoFunctors 0 1
    (by decide) (by decide) (by decide) (by decide)

/-- C7: `prepareDirty` (and `prepare`, which forwards to it over the full
surface) returns the status of `clear`: with `opaque = false` it enables the
scissor, scissors to the dirty rectangle (in GL bottom-left coordinates),
issues the colour-buffer clear and reports `kStatusDrew`; with `opaque = true`
it issues no colour clear anywhere in the frame setup — only a scissor-state
reset — and reports `kStatusDone`. -/
theorem prepareDirty_clear_behavior (st : RendererState) (pending : Nat)
    (l t r b : ℚ) :
    ((prepareDirty st pending l t r b false).1 = kStatusDrew ∧
      (prepareDirty st pending l t r b false).2.2 =
        (List.replicate pending GLOp.layerUpdate ++ [GLOp.viewport st.width st.height]) ++
        [GLOp.enableScissor, GLOp.setScissor l (st.height - b) (r - l) (b - t),
         GLOp.clearColorBuffer]) ∧
    ((prepareDirty st pending l t r b true).1 = kStatusDone ∧
      (prepareDirty st pending l t r b true).2.2 =
        (List.replicate pending GLOp.layerUpdate ++ [GLOp.viewport st.width st.height]) ++
        [GLOp.resetScissor] ∧
      GLOp.clearColorBuffer ∉ (prepareDirty st pending l t r b true).2.2) := by
  refine ⟨⟨rfl, rfl⟩, rfl, rfl, ?_⟩
  show GLOp.clearColorBuffer ∉
    (List.replicate pending GLOp.layerUpdate ++ [GLOp.viewport st.width st.height]) ++
      [GLOp.resetScissor]
  intro hmem
  rcases List.mem_append.mp hmem with hmem' | hmem'
  · rcases List.mem_append.mp hmem' with hrep | hvp
    · exact absurd (List.eq_of_mem_replicate hrep) (by simp)
    · simp at hvp
  · simp at hmem'

/-- C8: on restore of a non-FBO layer whose stored alpha is below 255,
`composeLayer` first issues a destination-in colour quad over the layer bounds
with colour `alpha << 24` (multiplying the framebuffer by that alpha), resets
the layer's alpha to 255, and only afterwards issues the textured-quad
composition draw — which therefore runs at alpha 255. -/
theorem composeLayer_alpha_premultiply (cur : Snapshot) (l : Layer)
    (hfbo : cur.flags &&& kFlagIsFboLayer = 0) (ha : l.alpha < 255)
    (hne : l.layerRect.isEmpty = false) :
    composeLayer cur (some l) =
      (some { l with alpha := 255 },
       [CompositionEvent.colorRect l.layerRect (l.alpha <<< 24) XferMode.dstIn true,
        CompositionEvent.composeRect 255 l.mode l.layerRect]) := by
  unfold composeLayer
  simp [hfbo, ha, hne]

/-- Witness for C8: a 50×50 source-over layer at alpha 128. -/
theorem composeLayer_alpha_premultiply_witness :
    composeLayer plainSnapshot (some ⟨128, XferMode.srcOver, ⟨0, 0, 50, 50⟩, true⟩) =
      (some ⟨255, XferMode.srcOver, ⟨0, 0, 50, 50⟩, true⟩,
       [CompositionEvent.colorRect ⟨0, 0, 50, 50⟩ (128 <<< 24) XferMode.dstIn true,
        CompositionEvent.composeRect 255 XferMode.srcOver ⟨0, 0, 50, 50⟩]) :=
  composeLayer_alpha_premultiply plainSnapshot ⟨128, XferMode.srcOver, ⟨0, 0, 50, 50⟩, true⟩
    (by decide) (by decide) (by norm_num [Rect.isEmpty])

/-- Containment is reflexive. -/
theorem contains_refl (r : Rect) : r.contains r = true := by
  simp [Rect.contains]

/-- Containment is transitive. -/
theorem contains_trans {a b c : Rect} (h1 : a.contains b = true)
    (h2 : b.contains c = true) : a.contains c = true := by
  simp only [Rect.contains, Bool.and_eq_true, decide_eq_true_eq, and_assoc] at *
  exact ⟨le_trans h1.1 h2.1, le_trans h1.2.1 h2.2.1,
    le_trans h2.2.2.1 h1.2.2.1, le_trans h2.2.2.2 h1.2.2.2⟩

/-- A successful intersection is contained in its left operand. -/
theorem intersect_contained_left {a b c : Rect} (h : a.intersect b = some c) :
    a.contains c = true := by
  unfold Rect.intersect at h
  split at h
  · injection h with h'
    subst h'
    simp only [Rect.contains, Bool.and_eq_true, decide_eq_true_eq, and_assoc]
    exact ⟨le_max_left _ _, le_max_left _ _, min_le_left _ _, min_le_left _ _⟩
  · cases h

/-- The bounding union of two contained rectangles is contained. -/
theorem contains_unionRect {C a b : Rect} (ha : C.contains a = true)
    (hb : C.contains b = true) : C.contains (unionRect a b) = true := by
  simp only [Rect.contains, unionRect, Bool.and_eq_true, decide_eq_true_eq,
    and_assoc] at *
  exact ⟨le_min ha.1 hb.1, le_min ha.2.1 hb.2.1,
    max_le ha.2.2.1 hb.2.2.1, max_le ha.2.2.2 hb.2.2.2⟩

/-- Folding bounding unions over contained rectangles stays contained. -/
theorem contains_foldl_unionRect (C : Rect) (l : List Rect) :
    ∀ init : Rect, C.contains init = true → (∀ x ∈ l, C.contains x = true) →
      C.contains (l.foldl unionRect init) = true := by
  induction l with
  | nil => intro init hinit _; exact hinit
  | cons r rs ih =>
      intro init hinit hl
      exact ih (unionRect init r) (contains_unionRect hinit (hl r (by simp)))
        (fun x hx => hl x (by simp [hx]))

/-- The bounds of a region of contained rectangles is a contained (or empty)
clip rectangle. -/
theorem regionBounds_subsetB (C : Rect) (l : List Rect)
    (hl : ∀ x ∈ l, C.contains x = true) : (regionBounds l).subsetB C = true := by
  cases l with
  | nil =>
      simp [regionBounds, Rect.subsetB, Rect.setEmpty, Rect.isEmpty]
  | cons r rs =>
      unfold Rect.subsetB
      have : C.contains (regionBounds (r :: rs)) = true := by
        show C.contains (rs.foldl unionRect r) = true
        exact contains_foldl_unionRect C rs r (hl r (by simp))
          (fun x hx => hl x (by simp [hx]))
      rw [this]
      simp

/-- Every piece of a region intersection is contained in whatever contains the
left region's rectangles. -/
theorem regionInter_contained (C : Rect) (as_ bs : List Rect)
    (h : ∀ a ∈ as_, C.contains a = true) :
    ∀ c ∈ regionInter as_ bs, C.contains c = true := by
  intro c hc
  unfold regionInter at hc
  rcases List.mem_flatMap.mp hc with ⟨a, ha, hcm⟩
  rcases List.mem_filterMap.mp hcm with ⟨b, _, hib⟩
  exact contains_trans (h a ha) (intersect_contained_left hib)

/-- The snapshot's effective clip region is contained in its clip rectangle
as long as the stored region is (the standing snapshot invariant). -/
theorem regionOf_contained (s : Snapshot)
    (hreg : ∀ x ∈ s.clipRegion, s.clipRect.contains x = true) :
    ∀ x ∈ s.regionOf, s.clipRect.contains x = true := by
  intro x hx
  unfold Snapshot.regionOf at hx
  split at hx
  · rcases List.mem_singleton.mp hx with rfl
    exact contains_refl _
  · exact hreg x hx

/-- `clipRegionTransformed` with the intersect operator never grows the clip
rectangle. -/
theorem clipRegionTransformed_intersect_subset (s : Snapshot) (region : List Rect)
    (hreg : ∀ x ∈ s.clipRegion, s.clipRect.contains x = true) :
    ((s.clipRegionTransformed region RegionOp.intersect).clipRect).subsetB s.clipRect
      = true := by
  show (regionBounds (regionInter s.regionOf region)).subsetB s.clipRect = true
  exact regionBounds_subsetB s.clipRect _
    (regionInter_contained s.clipRect s.regionOf region (regionOf_contained s hreg))

/-- C4: with the intersect operator, under any current transform, none of
`clipRect`, `clipPath`, `clipRegion` grows the snapshot's clip rectangle: the
post-call clip rectangle is empty or contained in the pre-call one (assuming
the standing invariant that the stored clip region lies within the clip
rectangle). -/
theorem clip_intersect_monotone (s : Snapshot) (l t r b : ℚ)
    (raster region : List Rect)
    (hreg : ∀ x ∈ s.clipRegion, s.clipRect.contains x = true) :
    ((clipRectOp s l t r b RegionOp.intersect raster).2.clipRect).subsetB s.clipRect
      = true ∧
    ((clipPathOp s raster RegionOp.intersect).2.clipRect).subsetB s.clipRect = true ∧
    ((clipRegionOp s region RegionOp.intersect).2.clipRect).subsetB s.clipRect
      = true := by
  have hpath : ∀ reg0 : List Rect,
      ((clipPathOp s reg0 RegionOp.intersect).2.clipRect).subsetB s.clipRect = true := by
    intro reg0
    show ((s.clipRegionTransformed (regionInter reg0 s.regionOf)
      RegionOp.intersect).clipRect).subsetB s.clipRect = true
    exact clipRegionTransformed_intersect_subset s _ hreg
  refine ⟨?_, hpath raster, clipRegionTransformed_intersect_subset s region hreg⟩
  unfold clipRectOp
  split
  · show ((s.clipLocal l t r b RegionOp.intersect).clipRect).subsetB s.clipRect = true
    unfold Snapshot.clipLocal
    simp only [Snapshot.clipTransformed]
    cases hint : s.clipRect.intersect (s.transform.mapRect ⟨l, t, r, b⟩) with
    | some c =>
        unfold Rect.subsetB
        rw [intersect_contained_left hint]
        simp
    | none =>
        simp [Rect.subsetB, Rect.setEmpty, Rect.isEmpty]
  · exact hpath raster

/-- Witness for C4: intersect-clipping the plain snapshot (empty stored
region, so the invariant is vacuous) by a 10..50 square, a rasterized path and
an explicit region. -/
theorem clip_intersect_monotone_witness :
    ((clipRectOp plainSnapshot 10 10 50 50 RegionOp.intersect
        [⟨0, 0, 20, 20⟩]).2.clipRect).subsetB plainSnapshot.clipRect = true ∧
    ((clipPathOp plainSnapshot [⟨0, 0, 20, 20⟩]
        RegionOp.intersect).2.clipRect).subsetB plainSnapshot.clipRect = true ∧
    ((clipRegionOp plainSnapshot [⟨5, 5, 30, 30⟩]
        RegionOp.intersect).2.clipRect).subsetB plainSnapshot.clipRect = true :=
  clip_intersect_monotone plainSnapshot 10 10 50 50 [⟨0, 0, 20, 20⟩] [⟨5, 5, 30, 30⟩]
    (by simp [plainSnapshot])

end HWUI
